import Mathlib

/-!
Verification of the ikonik icon-component generator core
(`scripts/generate.ts`): a shallow embedding of `generate` and its
helpers, with file-system, glob, SVGO, SVGR and prettier modelled as
external adapters.  Numeric options (default size / stroke width) enter
the generated text only through their decimal rendering, so they are
carried as the rendered strings.
-/

deriving instance DecidableEq for Except

namespace Ikonik

/-- Substring occurrence test on character lists. -/
def infixOf (pat : List Char) : List Char → Bool
  | [] => pat.isEmpty
  | c :: rest => pat.isPrefixOf (c :: rest) || infixOf pat rest

/-- JS `String.prototype.includes`: substring test (`svgRaw.includes("<svg")`). -/
def includes (s pat : String) : Bool :=
  infixOf pat.data s.data

/-- Split a character list on a separator character, JS
`String.prototype.split` semantics: empty segments are preserved and the
result is never empty. -/
def splitCharList (sep : Char) : List Char → List (List Char)
  | [] => [[]]
  | c :: rest =>
    match splitCharList sep rest with
    | [] => [[]]
    | w :: ws => if c = sep then [] :: w :: ws else (c :: w) :: ws

/-- JS `base.split("-")` (line 148 of generate.ts). -/
def splitHyphen (s : String) : List String :=
  (splitCharList '-' s.data).map String.mk

/-- JS `Array.prototype.join("-")`. -/
def joinHyphen : List String → String
  | [] => ""
  | [w] => w
  | w :: ws => w ++ "-" ++ joinHyphen ws

/-- Whitespace stripped by JS `String.prototype.trim` (ASCII range). -/
def isJsSpace (c : Char) : Bool :=
  c = ' ' || c = '\t' || c = '\n' || c = '\r' || c = '\x0b' || c = '\x0c'

/-- Strip leading and trailing whitespace from a character list. -/
def trimChars (l : List Char) : List Char :=
  ((l.dropWhile isJsSpace).reverse.dropWhile isJsSpace).reverse

/-- JS `String.prototype.trim` (line 132, `inner.trim()`). -/
def jsTrim (s : String) : String :=
  String.mk (trimChars s.data)

/-- Model of `node:path` `basename(rel, ".svg")` (line 125): the last
slash-separated segment, with the `.svg` extension stripped when the
segment ends with it and is not the extension alone. -/
def basename (relPath : String) : String :=
  let nm := (splitCharList '/' relPath.data).getLastD relPath.data
  if ".svg".data.isSuffixOf nm && 4 < nm.length then
    String.mk (nm.take (nm.length - 4))
  else
    String.mk nm

/-- Model of `node:path` `join` as used for output paths (lines 87, 142, 157, 161). -/
def pathJoin (a b : String) : String :=
  a ++ "/" ++ b

/-! ### pascalCase (the `change-case` library)

`pascalCase` splits the input into words at case boundaries
(`/([a-z0-9])([A-Z])/` and `/([A-Z])([A-Z][a-z])/`) and at runs of
non-alphanumeric characters, then upper-cases each word head,
lower-cases the rest and concatenates (digit-headed words after the
first get a `_` separator). -/

/-- Insert a word boundary between `[a-z0-9]` and `[A-Z]`. -/
def caseBoundary1 : List Char → List Char
  | c1 :: c2 :: rest =>
    if (c1.isLower || c1.isDigit) && c2.isUpper then
      c1 :: '\x00' :: caseBoundary1 (c2 :: rest)
    else
      c1 :: caseBoundary1 (c2 :: rest)
  | l => l

/-- Insert a word boundary between `[A-Z]` and `[A-Z][a-z]`. -/
def caseBoundary2 : List Char → List Char
  | c1 :: c2 :: c3 :: rest =>
    if c1.isUpper && c2.isUpper && c3.isLower then
      c1 :: '\x00' :: caseBoundary2 (c2 :: c3 :: rest)
    else
      c1 :: caseBoundary2 (c2 :: c3 :: rest)
  | l => l

/-- ASCII alphanumeric (the strip regexp keeps `[A-Za-z0-9]`). -/
def isWordChar (c : Char) : Bool :=
  c.isAlpha || c.isDigit

/-- Maximal alphanumeric runs of a character list (everything else,
including inserted boundaries, separates words). -/
def wordRuns : List Char → List (List Char)
  | [] => []
  | c :: rest =>
    if isWordChar c then
      match wordRuns rest with
      | [] => [[c]]
      | w :: ws =>
        match rest with
        | [] => [[c]]
        | r :: _ => if isWordChar r then (c :: w) :: ws else [c] :: w :: ws
    else
      wordRuns rest

/-- The `pascalCaseTransform` step: upper-case the word head, lower-case the
rest; a digit-headed word after the first is preceded by `_`. -/
def pascalWord (idx : Nat) (w : List Char) : List Char :=
  match w with
  | [] => []
  | c :: rest =>
    if 0 < idx && c.isDigit then
      '_' :: c :: rest.map Char.toLower
    else
      c.toUpper :: rest.map Char.toLower

/-- Transform and concatenate the words. -/
def pascalJoin (idx : Nat) : List (List Char) → List Char
  | [] => []
  | w :: ws => pascalWord idx w ++ pascalJoin (idx + 1) ws

/-- The `pascalCase` conversion from `change-case` (lines 126–127). -/
def pascalCase (s : String) : String :=
  String.mk (pascalJoin 0 (wordRuns (caseBoundary2 (caseBoundary1 s.data))))

/-! ### Body extraction and sanitization (lines 121–124, 132) -/

/-- Suffix after the first `>` (the `[^>]*>` part of the svg regex). -/
def afterFirstGt : List Char → Option (List Char)
  | [] => none
  | c :: rest => if c = '>' then some rest else afterFirstGt rest

/-- Suffix after the first `"` (the `[^"]*"` part of the attribute regexes). -/
def afterFirstQuote : List Char → Option (List Char)
  | [] => none
  | c :: rest => if c = '"' then some rest else afterFirstQuote rest

/-- First occurrence of `pat`: the text before it and the text after it. -/
def splitAtInfix (pat : List Char) : List Char → Option (List Char × List Char)
  | [] => if pat.isEmpty then some ([], []) else none
  | c :: rest =>
    if pat.isPrefixOf (c :: rest) then
      some ([], (c :: rest).drop pat.length)
    else
      match splitAtInfix pat rest with
      | some (pre, post) => some (c :: pre, post)
      | none => none

/-- Try the regex `<svg[^>]*>([\s\S]*?)<\/svg>` anchored at the head of
the list, returning the captured group. -/
def svgMatchAt (l : List Char) : Option (List Char) :=
  if "<svg".data.isPrefixOf l then
    match afterFirstGt (l.drop 4) with
    | none => none
    | some afterGt =>
      match splitAtInfix "</svg>".data afterGt with
      | some (inner, _) => some inner
      | none => none
  else
    none

/-- Scan for the first position where the svg regex matches. -/
def svgSearch : List Char → Option (List Char)
  | [] => none
  | c :: rest =>
    match svgMatchAt (c :: rest) with
    | some inner => some inner
    | none => svgSearch rest

/-- Line 121: `jsx.match(/<svg[^>]*>([\s\S]*?)<\/svg>/)?.[1] ?? ""`. -/
def extractInner (s : String) : String :=
  match svgSearch s.data with
  | some inner => String.mk inner
  | none => ""

/-- The pattern head of `/fill="[^"]*"/`. -/
def fillAttrPat : List Char := "fill=\"".data

/-- The pattern head of `/stroke="[^"]*"/`. -/
def strokeAttrPat : List Char := "stroke=\"".data

/-- Try the attribute regex anchored at the head of the list, returning
the suffix after the whole match. -/
def attrMatchAt (attr : List Char) (l : List Char) : Option (List Char) :=
  if attr.isPrefixOf l then afterFirstQuote (l.drop attr.length) else none

/-- One fuelled left-to-right `replaceAll(re, "")` pass: at each
position the match is removed, otherwise the character is kept.  Every
step consumes at least one character, so fuel `l.length` never runs
out. -/
def removeAttrFuel (attr : List Char) : Nat → List Char → List Char
  | _, [] => []
  | 0, l => l
  | Nat.succ f, c :: rest =>
    match attrMatchAt attr (c :: rest) with
    | some remainder => removeAttrFuel attr f remainder
    | none => c :: removeAttrFuel attr f rest

/-- The full `s.replaceAll(/attr="[^"]*"/g, "")` pass. -/
def removeAttr (attr : List Char) (l : List Char) : List Char :=
  removeAttrFuel attr l.length l

/-- Does the attribute regex match anywhere in the list? -/
def hasAttrOccurrence (attr : List Char) : List Char → Bool
  | [] => false
  | c :: rest => (attrMatchAt attr (c :: rest)).isSome || hasAttrOccurrence attr rest

/-- Lines 122–123: strip `fill="…"` then `stroke="…"` attributes. -/
def removeFillStroke (s : String) : String :=
  String.mk (removeAttr strokeAttrPat (removeAttr fillAttrPat s.data))

/-- The body sanitization applied to the raw extracted body: attribute
stripping (lines 122–123) followed by `trim` (line 132). -/
def sanitizeBody (raw : String) : String :=
  jsTrim (removeFillStroke raw)

/-! ### The component template (`buildComponent`, lines 20–68) -/

/-- Line 29: `strokeWidthValue`, the expression bound to the root
element's `strokeWidth` attribute. -/
def strokeWidthValue (filled : Bool) : String :=
  if filled then "undefined as any" else "strokeWidth"

/-- The argument record of `buildComponent`. -/
structure ComponentData where
  componentName : String
  svgBody : String
  defaultSize : String
  defaultStrokeWidth : String
  fill : String
  stroke : String
  filled : Bool
deriving DecidableEq, Repr

/-- Template text from the start through `size = ` and the interpolated
default size. -/
def tplHeaderA (name sz : String) : String :=
  "import * as React from \"react\";\n\nexport interface " ++ name
  ++ "Props extends React.SVGProps<SVGSVGElement> \x7b\n  title?: string;\n  titleId?: string;\n  size?: number;\n  strokeWidth?: number;\n\x7d\n\nconst "
  ++ name ++ " = React.memo(React.forwardRef<SVGSVGElement, " ++ name
  ++ "Props>(\n  (\x7b title, titleId, size = " ++ sz

/-- Template text from after the interpolated default stroke width
through `viewBox="0 0 24 24"` and the indentation of the `fill`
attribute. -/
def tplHeaderB : String :=
  ", ...props \x7d, ref) => \x7b\n    return (\n      <svg\n        ref=\x7bref\x7d\n        width=\x7bsize\x7d\n        height=\x7bsize\x7d\n        aria-hidden=\x7btitle ? undefined : \"true\"\x7d\n        aria-labelledby=\x7btitle ? titleId : undefined\x7d\n        role=\x7btitle ? \"img\" : \"presentation\"\x7d\n        viewBox=\"0 0 24 24\"\n        "

/-- Template text from the start through `viewBox="0 0 24 24"` and the
indentation of the `fill` attribute. -/
def tplHeader (name sz sw : String) : String :=
  tplHeaderA name sz ++ ", strokeWidth = " ++ sw ++ tplHeaderB

/-- Template text for the root element's color and stroke attributes:
`fill`, `stroke`, `strokeWidth`, line caps, prop spread, and the
closing `>`. -/
def tplAttr (fill stroke : String) (filled : Bool) : String :=
  "fill=\"" ++ fill ++ "\"\n        stroke=\"" ++ stroke
  ++ "\"\n        strokeWidth=\x7b" ++ strokeWidthValue filled
  ++ "\x7d\n        strokeLinecap=\"round\"\n        strokeLinejoin=\"round\"\n        \x7b...props\x7d\n      >\n"

/-- Template text from the optional title child to the end. -/
def tplFooter (name svgBody : String) : String :=
  "        \x7btitle ? <title id=\x7btitleId\x7d>\x7btitle\x7d</title> : null\x7d\n        "
  ++ svgBody ++ "\n      </svg>\n    );\n  \x7d\n));\n\n" ++ name
  ++ ".displayName = \"" ++ name ++ "\";\nexport default " ++ name ++ ";\n"

/-- Lines 20–68: `buildComponent`, the fixed template rendered with the
interpolated data. -/
def buildComponent (d : ComponentData) : String :=
  tplHeader d.componentName d.defaultSize d.defaultStrokeWidth
  ++ tplAttr d.fill d.stroke d.filled
  ++ tplFooter d.componentName d.svgBody

/-! ### Manifest and metadata (lines 70–71, 145–149, 154–164) -/

/-- One manifest entry (`entries.push` at line 145). -/
structure Entry where
  name : String
  file : String
  tags : List String
deriving DecidableEq, Repr

/-- The metadata document `{ count, icons }` (line 162). -/
structure Metadata where
  count : Nat
  icons : List Entry
deriving DecidableEq, Repr

/-- The document `{ count: entries.length, icons: entries }`. -/
def metadataOf (entries : List Entry) : Metadata :=
  { count := entries.length, icons := entries }

/-- The compiled Handlebars `INDEX_TEMPLATE` (lines 70–71) applied to
the entries: one re-export line per entry. -/
def indexTemplateRender (entries : List Entry) : String :=
  String.join (entries.map (fun e =>
    "export \x7b default as " ++ e.name ++ " \x7d from \"./" ++ e.file ++ "\";\n"))

/-- A hexadecimal digit, for JSON control-character escapes. -/
def hexDigit (n : Nat) : String :=
  String.mk ["0123456789abcdef".data.getD n '0']

/-- The `JSON.stringify` escaping of a single character. -/
def jsonEscapeChar (c : Char) : String :=
  if c = '"' then "\\\""
  else if c = '\\' then "\\\\"
  else if c = '\n' then "\\n"
  else if c = '\r' then "\\r"
  else if c = '\t' then "\\t"
  else if c = '\x08' then "\\b"
  else if c = '\x0c' then "\\f"
  else if c.toNat < 32 then "\\u00" ++ hexDigit (c.toNat / 16) ++ hexDigit (c.toNat % 16)
  else String.mk [c]

/-- A JSON string literal. -/
def jsonStr (s : String) : String :=
  "\"" ++ String.join (s.data.map jsonEscapeChar) ++ "\""

/-- Join with a separator (JSON list rendering helper). -/
def joinSep (sep : String) : List String → String
  | [] => ""
  | [x] => x
  | x :: xs => x ++ sep ++ joinSep sep xs

/-- The `tags` array as `JSON.stringify(..., null, 2)` renders it at
depth 3. -/
def tagsJson (tags : List String) : String :=
  if tags.isEmpty then "[]"
  else "[\n" ++ joinSep ",\n" (tags.map (fun t => "        " ++ jsonStr t)) ++ "\n      ]"

/-- One icon object as `JSON.stringify(..., null, 2)` renders it at
depth 2. -/
def entryJson (e : Entry) : String :=
  "    \x7b\n      \"name\": " ++ jsonStr e.name ++ ",\n      \"file\": " ++ jsonStr e.file
  ++ ",\n      \"tags\": " ++ tagsJson e.tags ++ "\n    \x7d"

/-- Line 162: `JSON.stringify({ count, icons }, null, 2)`. -/
def metadataJson (m : Metadata) : String :=
  "\x7b\n  \"count\": " ++ toString m.count ++ ",\n  \"icons\": "
  ++ (if m.icons.isEmpty then "[]"
      else "[\n" ++ joinSep ",\n" (m.icons.map entryJson) ++ "\n  ]")
  ++ "\n\x7d"

/-! ### The orchestrator (`generate`, lines 73–167) -/

/-- The `Opts` record (lines 10–17).  The numeric `defaultSize` and
`defaultStrokeWidth` are carried as their decimal renderings, which is
the only way they are consumed (template interpolation). -/
structure Opts where
  srcDir : String
  outDir : String
  prefixOpt : Option String
  defaultSize : String
  defaultStrokeWidth : String
  filled : Bool
deriving DecidableEq, Repr

/-- The external adapters: SVGO `optimize` (line 96), SVGR `transform`
(line 107, with its fixed configuration), and `prettier.format`
(lines 140 and 156).  Each may fail, which in the source is a thrown
error. -/
structure Env where
  optimize : String → Except String String
  transform : String → Except String String
  format : String → Except String String

/-- Run-level failures: the `No SVG files found` error (line 79) or an
error propagated from an adapter. -/
inductive GenErr where
  | noInputFiles (msg : String)
  | adapter (msg : String)
deriving DecidableEq, Repr

/-- Observable side effects of a run, in order of occurrence within
each list: directories created, warnings, logs, and `(path, contents)`
file writes. -/
structure Trace where
  mkdirs : List String
  warnings : List String
  logs : List String
  written : List (String × String)
deriving DecidableEq, Repr

/-- The outcome of `generate`: its side-effect trace and either the
accumulated manifest entries or the error it threw. -/
structure RunResult where
  trace : Trace
  result : Except GenErr (List Entry)
deriving DecidableEq, Repr

/-- What one loop iteration (lines 86–152) does for one file. -/
inductive StepResult where
  | skipped (warning : String)
  | failed (err : String)
  | rendered (outPath pretty : String) (entry : Entry) (log : String)
deriving DecidableEq, Repr

/-- Line 135: `opts.filled ? "currentColor" : "none"`. -/
def fillValue (filled : Bool) : String :=
  if filled then "currentColor" else "none"

/-- Line 136: `opts.filled ? "none" : "currentColor"`. -/
def strokeValue (filled : Bool) : String :=
  if filled then "none" else "currentColor"

/-- The `buildComponent` argument as `generate` constructs it
(lines 130–138). -/
def componentDataFor (opts : Opts) (compName svgBody : String) : ComponentData :=
  { componentName := compName
    svgBody := svgBody
    defaultSize := opts.defaultSize
    defaultStrokeWidth := opts.defaultStrokeWidth
    fill := fillValue opts.filled
    stroke := strokeValue opts.filled
    filled := opts.filled }

/-- The entry `name`/`file`/`tags` derivation for a relative path
(lines 125–127 and 145–149): `pascalCase` of the prefixed base name,
`pascalCase` of the base name, and the hyphen split of the base name. -/
def mkEntry (opts : Opts) (rel : String) : Entry :=
  { name := pascalCase ((opts.prefixOpt.getD "") ++ basename rel)
    file := pascalCase (basename rel)
    tags := splitHyphen (basename rel) }

/-- One iteration of the `for (const rel of files)` loop for a file with
relative path `rel` and raw content `content`. -/
def processOne (env : Env) (opts : Opts) (rel content : String) : StepResult :=
  if !(includes content "<svg") then
    .skipped ("⚠️  Skipping invalid SVG: " ++ rel)
  else
    match env.optimize content with
    | .error e => .failed e
    | .ok svgOptimized =>
      match env.transform svgOptimized with
      | .error e => .failed e
      | .ok jsx =>
        match env.format (buildComponent (componentDataFor opts
            (pascalCase ((opts.prefixOpt.getD "") ++ basename rel))
            (sanitizeBody (extractInner jsx)))) with
        | .error e => .failed e
        | .ok pretty =>
          .rendered (pathJoin opts.outDir (pascalCase (basename rel) ++ ".tsx")) pretty
            (mkEntry opts rel)
            ("  ✓ " ++ basename rel ++ " → " ++ pascalCase ((opts.prefixOpt.getD "") ++ basename rel))

/-- The per-run accumulator threaded through the loop. -/
structure LoopState where
  warnings : List String
  logs : List String
  written : List (String × String)
  entries : List Entry
deriving DecidableEq, Repr

/-- The file loop (lines 86–152): sequential, the first adapter error
aborts it, a validation failure only records a warning. -/
def procFiles (env : Env) (opts : Opts) :
    List (String × String) → LoopState → LoopState × Option String
  | [], st => (st, none)
  | (rel, content) :: rest, st =>
    match processOne env opts rel content with
    | .skipped w =>
      procFiles env opts rest { st with warnings := st.warnings ++ [w] }
    | .failed e => (st, some e)
    | .rendered outPath pretty entry log =>
      procFiles env opts rest
        { st with
          written := st.written ++ [(outPath, pretty)]
          entries := st.entries ++ [entry]
          logs := st.logs ++ [log] }

/-- The loop state before the first iteration: only the start log
(line 82) has happened. -/
def initState (files : List (String × String)) : LoopState :=
  { warnings := []
    logs := ["📦 Found " ++ toString files.length ++ " SVG file(s)"]
    written := []
    entries := [] }

/-- The orchestrator `generate(opts)` (lines 73–167).  `files` is the result of the glob
enumeration paired with each file's raw content (file reads are
modelled as part of the enumeration input). -/
def generate (env : Env) (opts : Opts) (files : List (String × String)) : RunResult :=
  let mkdirs := [opts.outDir]
  if files.length = 0 then
    { trace := { mkdirs := mkdirs, warnings := [], logs := [], written := [] }
      result := .error (.noInputFiles ("No SVG files found in " ++ opts.srcDir)) }
  else
    match procFiles env opts files (initState files) with
    | (st, some e) =>
      { trace := { mkdirs := mkdirs, warnings := st.warnings, logs := st.logs, written := st.written }
        result := .error (.adapter e) }
    | (st, none) =>
      match env.format (indexTemplateRender st.entries) with
      | .error e =>
        { trace := { mkdirs := mkdirs, warnings := st.warnings, logs := st.logs, written := st.written }
          result := .error (.adapter e) }
      | .ok indexCode =>
        { trace := { mkdirs := mkdirs
                     warnings := st.warnings
                     logs := st.logs ++ ["\n📄 Generated index.ts with " ++ toString st.entries.length ++ " exports"]
                     written := st.written
                       ++ [(pathJoin opts.outDir "index.ts", indexCode),
                           (pathJoin opts.outDir "metadata.json", metadataJson (metadataOf st.entries))] }
          result := .ok st.entries }

/-- Number of enumerated files whose content contains the `<svg` marker. -/
def countValid (files : List (String × String)) : Nat :=
  (files.filter (fun rc => includes rc.2 "<svg")).length

/-- All three adapters succeed on every input. -/
def EnvTotal (env : Env) : Prop :=
  (∀ s, ∃ t, env.optimize s = Except.ok t)
  ∧ (∀ s, ∃ t, env.transform s = Except.ok t)
  ∧ (∀ s, ∃ t, env.format s = Except.ok t)

/-- The identity adapters, for concrete runs. -/
def idEnv : Env :=
  { optimize := fun s => .ok s, transform := fun s => .ok s, format := fun s => .ok s }

/-- A concrete options record (the CLI defaults). -/
def sampleOpts : Opts :=
  { srcDir := "icons-src"
    outDir := "icons"
    prefixOpt := none
    defaultSize := "24"
    defaultStrokeWidth := "1.5"
    filled := false }

/-- A concrete enumeration: one valid SVG and one invalid file. -/
def sampleFiles : List (String × String) :=
  [("home.svg", "<svg><path/></svg>"), ("bad.svg", "nope")]

/-! ## Basic string lemmas -/

theorem strExt {s t : String} (h : s.data = t.data) : s = t := by
  cases s
  cases t
  exact congrArg String.mk h

@[simp] theorem mk_data (s : String) : String.mk s.data = s := rfl

@[simp] theorem data_mk (l : List Char) : (String.mk l).data = l := rfl

@[simp] theorem data_append (s t : String) : (s ++ t).data = s.data ++ t.data := rfl

theorem infixOf_iff {pat l : List Char} : infixOf pat l = true ↔ pat <:+: l := by
  induction l with
  | nil =>
    simp only [infixOf, List.isEmpty_iff, List.infix_nil]
  | cons c rest ih =>
    simp only [infixOf, Bool.or_eq_true, List.isPrefixOf_iff_prefix, ih]
    exact (List.infix_cons_iff).symm

theorem includes_iff {s pat : String} : includes s pat = true ↔ pat.data <:+: s.data :=
  infixOf_iff

theorem includes_append_right {b pat : String} (a : String) (h : includes b pat = true) :
    includes (a ++ b) pat = true := by
  rw [includes_iff] at h ⊢
  obtain ⟨u, v, huv⟩ := h
  exact ⟨a.data ++ u, v, by simp [← huv]⟩

theorem includes_append_left {a pat : String} (b : String) (h : includes a pat = true) :
    includes (a ++ b) pat = true := by
  rw [includes_iff] at h ⊢
  obtain ⟨u, v, huv⟩ := h
  exact ⟨u, v ++ b.data, by simp [← huv]⟩

theorem includes_mid (a b c : String) : includes (a ++ b ++ c) b = true := by
  rw [includes_iff]
  exact ⟨a.data, c.data, by simp⟩

theorem includes_suffix (a b : String) : includes (a ++ b) b = true := by
  rw [includes_iff]
  exact ⟨a.data, [], by simp⟩

/-! ## C5: empty enumeration -/

/-- C5: when the enumerator returns an empty set, `generate` fails with
the `NoInputFiles` error, whose message names the configured source
directory, and the output directory has already been created (the
`mkdir` side effect is in the trace despite the failure). -/
theorem c5_no_input_files (env : Env) (opts : Opts) :
    (generate env opts []).result =
        Except.error (GenErr.noInputFiles ("No SVG files found in " ++ opts.srcDir)) ∧
    includes ("No SVG files found in " ++ opts.srcDir) opts.srcDir = true ∧
    (generate env opts []).trace.mkdirs = [opts.outDir] :=
  ⟨rfl, includes_suffix _ _, rfl⟩

/-! ## C9: determinism -/

/-- C9: `generate` is deterministic — two runs with the same options,
the same enumeration result and the same adapter behavior produce
byte-identical file writes (component files, barrel file and metadata
document) and the same result. -/
theorem c9_deterministic (env : Env) (opts : Opts) (files : List (String × String))
    (r₁ r₂ : RunResult) (h₁ : r₁ = generate env opts files) (h₂ : r₂ = generate env opts files) :
    r₁.trace.written = r₂.trace.written ∧ r₁.result = r₂.result := by
  subst h₁
  subst h₂
  exact ⟨rfl, rfl⟩

/-- Witness for C9 at a concrete run. -/
theorem c9_deterministic_witness :
    (generate idEnv sampleOpts sampleFiles).trace.written =
        (generate idEnv sampleOpts sampleFiles).trace.written ∧
    (generate idEnv sampleOpts sampleFiles).result = (generate idEnv sampleOpts sampleFiles).result :=
  c9_deterministic idEnv sampleOpts sampleFiles _ _ rfl rfl

/-! ## C6: invalid files are skipped with a warning -/

/-- C6: a file whose content lacks the `<svg` marker only appends the
warning naming its relative path to the state; it adds no manifest
entry and no write, and the loop continues with the remaining files
unchanged. -/
theorem c6_invalid_skipped (env : Env) (opts : Opts) (rel content : String)
    (rest : List (String × String)) (st : LoopState)
    (h : includes content "<svg" = false) :
    procFiles env opts ((rel, content) :: rest) st =
      procFiles env opts rest
        { st with warnings := st.warnings ++ ["⚠️  Skipping invalid SVG: " ++ rel] } := by
  simp [procFiles, processOne, h]

/-- Witness for C6 at a concrete invalid file. -/
theorem c6_invalid_skipped_witness :
    includes "nope" "<svg" = false ∧
    procFiles idEnv sampleOpts [("bad.svg", "nope"), ("home.svg", "<svg><path/></svg>")]
        (initState sampleFiles) =
      procFiles idEnv sampleOpts [("home.svg", "<svg><path/></svg>")]
        { initState sampleFiles with
          warnings := (initState sampleFiles).warnings ++ ["⚠️  Skipping invalid SVG: bad.svg"] } :=
  ⟨by decide,
   c6_invalid_skipped idEnv sampleOpts "bad.svg" "nope"
     [("home.svg", "<svg><path/></svg>")] (initState sampleFiles) (by decide)⟩

/-! ## C8: adapter errors abort the whole run -/

/-- Amended C8: an error from the optimization adapter is not caught by
the loop — it aborts the batch at that file, so no subsequent file is
processed or written. -/
theorem c8_adapter_error_aborts (env : Env) (opts : Opts) (rel content : String)
    (rest : List (String × String)) (st : LoopState) (e : String)
    (hval : includes content "<svg" = true)
    (herr : env.optimize content = Except.error e) :
    procFiles env opts ((rel, content) :: rest) st = (st, some e) := by
  simp [procFiles, processOne, hval, herr]

/-- Adapters that fail on one specific input. -/
def envBoom : Env :=
  { optimize := fun s => if s = "<svg>A</svg>" then .error "boom" else .ok s
    transform := fun s => .ok s
    format := fun s => .ok s }

/-- Counterexample to C8 as stated: with an optimization adapter that
fails on the first file, the whole run fails with that error and the
second (valid) file produces no output at all — the failure is not
recoverable at the per-file level. -/
theorem c8_adapter_error_cex :
    (generate envBoom sampleOpts [("a.svg", "<svg>A</svg>"), ("b.svg", "<svg>B</svg>")]).result =
        Except.error (GenErr.adapter "boom") ∧
    (generate envBoom sampleOpts [("a.svg", "<svg>A</svg>"), ("b.svg", "<svg>B</svg>")]).trace.written = [] := by
  decide

/-- Witness for the amended C8 at a concrete failing adapter. -/
theorem c8_adapter_error_aborts_witness :
    includes "<svg>A</svg>" "<svg" = true ∧
    envBoom.optimize "<svg>A</svg>" = Except.error "boom" ∧
    procFiles envBoom sampleOpts [("a.svg", "<svg>A</svg>"), ("b.svg", "<svg>B</svg>")]
        (initState sampleFiles) =
      (initState sampleFiles, some "boom") :=
  ⟨by decide, by decide,
   c8_adapter_error_aborts envBoom sampleOpts "a.svg" "<svg>A</svg>"
     [("b.svg", "<svg>B</svg>")] (initState sampleFiles) "boom" (by decide) (by decide)⟩

/-! ## C3: sanitization -/

theorem removeAttrFuel_of_no_occurrence (attr : List Char) :
    ∀ (l : List Char) (f : Nat), hasAttrOccurrence attr l = false → removeAttrFuel attr f l = l := by
  intro l
  induction l with
  | nil =>
    intro f _
    cases f <;> rfl
  | cons c rest ih =>
    intro f h
    simp only [hasAttrOccurrence, Bool.or_eq_false_iff] at h
    have hnone : attrMatchAt attr (c :: rest) = none := by
      cases hm : attrMatchAt attr (c :: rest) with
      | none => rfl
      | some r => rw [hm] at h; simp at h
    cases f with
    | zero => rfl
    | succ g =>
      simp only [removeAttrFuel, hnone]
      rw [ih g h.2]

theorem removeAttr_of_no_occurrence (attr l : List Char)
    (h : hasAttrOccurrence attr l = false) : removeAttr attr l = l :=
  removeAttrFuel_of_no_occurrence attr l l.length h

theorem dropWhile_dropWhile (p : Char → Bool) (l : List Char) :
    (l.dropWhile p).dropWhile p = l.dropWhile p := by
  induction l with
  | nil => rfl
  | cons c rest ih =>
    by_cases hp : p c = true
    · simp [List.dropWhile_cons, hp, ih]
    · simp [List.dropWhile_cons, hp]

theorem dropWhile_eq_self_of_prefix (p : Char → Bool) {A B : List Char}
    (hA : A.dropWhile p = A) (hAB : B <+: A) : B.dropWhile p = B := by
  cases B with
  | nil => rfl
  | cons b B' =>
    obtain ⟨t, ht⟩ := hAB
    by_cases hp : p b = true
    · exfalso
      rw [← ht] at hA
      rw [List.cons_append, List.dropWhile_cons, if_pos hp] at hA
      have hle : ((B' ++ t).dropWhile p).length ≤ (B' ++ t).length :=
        (List.dropWhile_sublist p).length_le
      have := congrArg List.length hA
      simp only [List.length_cons, List.length_append] at this hle
      omega
    · simp [List.dropWhile_cons, hp]

theorem trimChars_idem (l : List Char) : trimChars (trimChars l) = trimChars l := by
  unfold trimChars
  set A := l.dropWhile isJsSpace with hAdef
  set B := (A.reverse.dropWhile isJsSpace).reverse with hBdef
  have hA : A.dropWhile isJsSpace = A := dropWhile_dropWhile isJsSpace l
  have hBpre : B <+: A := by
    rw [hBdef]
    have hsuf : A.reverse.dropWhile isJsSpace <:+ A.reverse := List.dropWhile_suffix _
    have h' : (A.reverse.dropWhile isJsSpace).reverse <+: A.reverse.reverse :=
      List.reverse_prefix.mpr hsuf
    rwa [List.reverse_reverse] at h'
  have hB : B.dropWhile isJsSpace = B := dropWhile_eq_self_of_prefix isJsSpace hA hBpre
  rw [hB]
  have hBrev : B.reverse = A.reverse.dropWhile isJsSpace := by
    rw [hBdef, List.reverse_reverse]
  rw [hBrev, dropWhile_dropWhile, ← hBrev, List.reverse_reverse]

/-- The claim C3's sanitization: a single removal pass can splice
surrounding text into a new attribute match, so the operation is
neither idempotent nor occurrence-free in general; it is idempotent on
every raw body whose sanitized output contains no `fill="…"` or
`stroke="…"` match. -/
theorem c3_sanitize_idempotent_on_clean (raw : String)
    (hf : hasAttrOccurrence fillAttrPat (sanitizeBody raw).data = false)
    (hs : hasAttrOccurrence strokeAttrPat (sanitizeBody raw).data = false) :
    sanitizeBody (sanitizeBody raw) = sanitizeBody raw := by
  set out := sanitizeBody raw with hout
  have h1 : removeAttr fillAttrPat out.data = out.data :=
    removeAttr_of_no_occurrence _ _ hf
  have h2 : removeAttr strokeAttrPat out.data = out.data :=
    removeAttr_of_no_occurrence _ _ hs
  have h3 : removeFillStroke out = out := by
    unfold removeFillStroke
    rw [h1, h2, mk_data]
  have hdata : out.data = trimChars (removeFillStroke raw).data := by
    rw [hout]
    rfl
  have h4 : jsTrim out = out := by
    apply strExt
    show trimChars out.data = out.data
    rw [hdata, trimChars_idem]
  calc sanitizeBody out = jsTrim (removeFillStroke out) := rfl
    _ = jsTrim out := by rw [h3]
    _ = out := h4

/-- Counterexample to C3 as stated: on the raw body `fill=fill=""""`
the sanitizer's single pass leaves the text `fill=""` — which still
contains a `fill="…"` attribute occurrence — and a second pass removes
it, so sanitization is neither idempotent nor occurrence-free. -/
theorem c3_sanitize_cex :
    ¬ (sanitizeBody (sanitizeBody "fill=fill=\"\"\"\"") = sanitizeBody "fill=fill=\"\"\"\"" ∧
       hasAttrOccurrence fillAttrPat (sanitizeBody "fill=fill=\"\"\"\"").data = false) := by
  decide

/-- Witness for the amended C3 at a concrete clean body. -/
theorem c3_sanitize_idempotent_witness :
    hasAttrOccurrence fillAttrPat (sanitizeBody "<path d=\"M0 0\"/>").data = false ∧
    hasAttrOccurrence strokeAttrPat (sanitizeBody "<path d=\"M0 0\"/>").data = false ∧
    sanitizeBody (sanitizeBody "<path d=\"M0 0\"/>") = sanitizeBody "<path d=\"M0 0\"/>" :=
  ⟨by decide, by decide,
   c3_sanitize_idempotent_on_clean "<path d=\"M0 0\"/>" (by decide) (by decide)⟩

/-! ## Loop lemmas for the generate-level claims -/

theorem processOne_skipped_eq (env : Env) (opts : Opts) (rel content : String)
    (hval : includes content "<svg" = false) :
    processOne env opts rel content = .skipped ("⚠️  Skipping invalid SVG: " ++ rel) := by
  simp [processOne, hval]

theorem processOne_rendered_of_total (env : Env) (opts : Opts) (rel content : String)
    (henv : EnvTotal env) (hval : includes content "<svg" = true) :
    ∃ p pr lg, processOne env opts rel content = StepResult.rendered p pr (mkEntry opts rel) lg := by
  obtain ⟨o, ho⟩ := henv.1 content
  obtain ⟨j, hj⟩ := henv.2.1 o
  obtain ⟨pr, hpr⟩ := henv.2.2 (buildComponent
    (componentDataFor opts (pascalCase ((opts.prefixOpt.getD "") ++ basename rel))
      (sanitizeBody (extractInner j))))
  refine ⟨pathJoin opts.outDir (pascalCase (basename rel) ++ ".tsx"), pr,
    "  ✓ " ++ basename rel ++ " → " ++ pascalCase ((opts.prefixOpt.getD "") ++ basename rel), ?_⟩
  simp [processOne, hval, ho, hj, hpr]

theorem processOne_rendered_entry (env : Env) (opts : Opts) (rel content p pr lg : String)
    (ent : Entry) (h : processOne env opts rel content = StepResult.rendered p pr ent lg) :
    ent = mkEntry opts rel := by
  unfold processOne at h
  split at h
  · simp at h
  · split at h
    · simp at h
    · split at h
      · simp at h
      · split at h
        · simp at h
        · simp only [StepResult.rendered.injEq] at h
          exact h.2.2.1.symm

theorem procFiles_entry_shape (env : Env) (opts : Opts) :
    ∀ (files : List (String × String)) (st : LoopState) (ent : Entry),
      ent ∈ (procFiles env opts files st).1.entries →
      ent ∈ st.entries ∨ ∃ rc ∈ files, ent = mkEntry opts rc.1 := by
  intro files
  induction files with
  | nil =>
    intro st ent h
    simp only [procFiles] at h
    exact Or.inl h
  | cons rc rest ih =>
    intro st ent h
    obtain ⟨rel, content⟩ := rc
    cases hp : processOne env opts rel content with
    | skipped w =>
      simp only [procFiles, hp] at h
      rcases ih _ _ h with h' | ⟨rc', hrc', he⟩
      · exact Or.inl h'
      · exact Or.inr ⟨rc', List.mem_cons_of_mem _ hrc', he⟩
    | failed e =>
      simp only [procFiles, hp] at h
      exact Or.inl h
    | rendered p pr ent' lg =>
      have hent : ent' = mkEntry opts rel := processOne_rendered_entry env opts rel content p pr lg ent' hp
      simp only [procFiles, hp] at h
      rcases ih _ _ h with h' | ⟨rc', hrc', he⟩
      · rcases List.mem_append.mp h' with h'' | h''
        · exact Or.inl h''
        · simp only [List.mem_singleton] at h''
          exact Or.inr ⟨(rel, content), List.mem_cons_self _ _, h'' ▸ hent⟩
      · exact Or.inr ⟨rc', List.mem_cons_of_mem _ hrc', he⟩

theorem procFiles_total_spec (env : Env) (opts : Opts) (henv : EnvTotal env) :
    ∀ (files : List (String × String)) (st : LoopState),
      (procFiles env opts files st).2 = none ∧
      (procFiles env opts files st).1.entries.length = st.entries.length + countValid files ∧
      (procFiles env opts files st).1.written.length = st.written.length + countValid files := by
  intro files
  induction files with
  | nil =>
    intro st
    simp [procFiles, countValid]
  | cons rc rest ih =>
    intro st
    obtain ⟨rel, content⟩ := rc
    by_cases hval : includes content "<svg" = true
    · obtain ⟨p, pr, lg, hp⟩ := processOne_rendered_of_total env opts rel content henv hval
      have hcv : countValid ((rel, content) :: rest) = countValid rest + 1 := by
        simp [countValid, List.filter_cons, hval]
      simp only [procFiles, hp]
      obtain ⟨h1, h2, h3⟩ := ih
        { st with
          written := st.written ++ [(p, pr)]
          entries := st.entries ++ [mkEntry opts rel]
          logs := st.logs ++ [lg] }
      refine ⟨h1, ?_, ?_⟩
      · rw [h2]
        simp only [List.length_append, List.length_singleton, hcv]
        omega
      · rw [h3]
        simp only [List.length_append, List.length_singleton, hcv]
        omega
    · have hval' : includes content "<svg" = false := by
        simpa using hval
      have hcv : countValid ((rel, content) :: rest) = countValid rest := by
        simp [countValid, List.filter_cons, hval']
      simp only [procFiles, processOne_skipped_eq env opts rel content hval']
      obtain ⟨h1, h2, h3⟩ := ih
        { st with warnings := st.warnings ++ ["⚠️  Skipping invalid SVG: " ++ rel] }
      exact ⟨h1, by rw [h2]; simp [hcv], by rw [h3]; simp [hcv]⟩

theorem generate_ok_procFiles (env : Env) (opts : Opts) (files : List (String × String))
    (es : List Entry) (h : (generate env opts files).result = Except.ok es) :
    ∃ st, procFiles env opts files (initState files) = (st, none) ∧ es = st.entries := by
  by_cases hlen : files.length = 0
  · have hg : (generate env opts files).result =
        Except.error (GenErr.noInputFiles ("No SVG files found in " ++ opts.srcDir)) := by
      simp only [generate, if_pos hlen]
    rw [hg] at h
    simp at h
  · rcases hPF : procFiles env opts files (initState files) with ⟨st, e?⟩
    cases e? with
    | some e =>
      have hg : (generate env opts files).result = Except.error (GenErr.adapter e) := by
        simp only [generate, if_neg hlen, hPF]
      rw [hg] at h
      simp at h
    | none =>
      rcases hFmt : env.format (indexTemplateRender st.entries) with e | idx
      · have hg : (generate env opts files).result = Except.error (GenErr.adapter e) := by
          simp only [generate, if_neg hlen, hPF, hFmt]
        rw [hg] at h
        simp at h
      · have hg : (generate env opts files).result = Except.ok st.entries := by
          simp only [generate, if_neg hlen, hPF, hFmt]
        have hes := hg.symm.trans h
        simp only [Except.ok.injEq] at hes
        exact ⟨st, rfl, hes.symm⟩

theorem generate_entries_shape (env : Env) (opts : Opts) (files : List (String × String))
    (es : List Entry) (h : (generate env opts files).result = Except.ok es) :
    ∀ ent ∈ es, ∃ rc ∈ files, ent = mkEntry opts rc.1 := by
  obtain ⟨st, hPF, hes⟩ := generate_ok_procFiles env opts files es h
  intro ent hent
  have hmem : ent ∈ (procFiles env opts files (initState files)).1.entries := by
    rw [hPF]
    exact hes ▸ hent
  rcases procFiles_entry_shape env opts files (initState files) ent hmem with h' | h'
  · simp [initState] at h'
  · exact h'

/-! ## C1: artifact counts -/

/-- C1: with working adapters and a nonempty enumeration, `generate`
performs one component-file write per valid input (input containing the
`<svg` marker) plus the barrel write and the metadata write — exactly
`countValid files + 2` writes — and the metadata document's count field
equals the number of manifest entries, which equals the number of
component-file writes. -/
theorem c1_artifact_count (env : Env) (opts : Opts) (files : List (String × String))
    (henv : EnvTotal env) (hne : files ≠ []) :
    ∃ es compWs idxCode,
      (generate env opts files).result = Except.ok es ∧
      (generate env opts files).trace.written =
        compWs ++ [(pathJoin opts.outDir "index.ts", idxCode),
                   (pathJoin opts.outDir "metadata.json", metadataJson (metadataOf es))] ∧
      compWs.length = es.length ∧
      es.length = countValid files ∧
      (generate env opts files).trace.written.length = countValid files + 2 ∧
      (metadataOf es).count = es.length := by
  have hlen : ¬ files.length = 0 := by
    simpa [List.length_eq_zero] using hne
  obtain ⟨h1, h2, h3⟩ := procFiles_total_spec env opts henv files (initState files)
  rcases hPF : procFiles env opts files (initState files) with ⟨st, e?⟩
  rw [hPF] at h1 h2 h3
  have he : e? = none := h1
  subst he
  obtain ⟨idx, hidx⟩ := henv.2.2 (indexTemplateRender st.entries)
  have hsimp : generate env opts files =
      { trace := { mkdirs := [opts.outDir]
                   warnings := st.warnings
                   logs := st.logs ++ ["\n📄 Generated index.ts with " ++ toString st.entries.length ++ " exports"]
                   written := st.written
                     ++ [(pathJoin opts.outDir "index.ts", idx),
                         (pathJoin opts.outDir "metadata.json", metadataJson (metadataOf st.entries))] }
        result := .ok st.entries } := by
    simp only [generate, if_neg hlen, hPF, hidx]
  have hentries : st.entries.length = countValid files := by
    simp [initState] at h2
    exact h2
  have hwritten : st.written.length = countValid files := by
    simp [initState] at h3
    exact h3
  refine ⟨st.entries, st.written, idx, ?_, ?_, ?_, ?_, ?_, rfl⟩
  · rw [hsimp]
  · rw [hsimp]
  · rw [hentries, hwritten]
  · exact hentries
  · rw [hsimp]
    simp only [RunResult.mk.injEq]
    simp [List.length_append, hwritten]

/-- Witness for C1 at a concrete run with one valid and one invalid input. -/
theorem c1_artifact_count_witness :
    EnvTotal idEnv ∧ sampleFiles ≠ [] ∧
    (∃ es compWs idxCode,
      (generate idEnv sampleOpts sampleFiles).result = Except.ok es ∧
      (generate idEnv sampleOpts sampleFiles).trace.written =
        compWs ++ [(pathJoin sampleOpts.outDir "index.ts", idxCode),
                   (pathJoin sampleOpts.outDir "metadata.json", metadataJson (metadataOf es))] ∧
      compWs.length = es.length ∧
      es.length = countValid sampleFiles ∧
      (generate idEnv sampleOpts sampleFiles).trace.written.length = countValid sampleFiles + 2 ∧
      (metadataOf es).count = es.length) :=
  ⟨⟨fun s => ⟨s, rfl⟩, fun s => ⟨s, rfl⟩, fun s => ⟨s, rfl⟩⟩, by decide,
   c1_artifact_count idEnv sampleOpts sampleFiles
     ⟨fun s => ⟨s, rfl⟩, fun s => ⟨s, rfl⟩, fun s => ⟨s, rfl⟩⟩ (by decide)⟩

/-! ## C4: identifier derivation -/

/-- C4: every manifest entry of a successful run has its file
identifier equal to the pascal-cased base name, its component
identifier equal to the pascal-case of the prefix concatenated with the
base name (one casing pass over the concatenation), and with no prefix
the two identifiers coincide. -/
theorem c4_identifier_derivation (env : Env) (opts : Opts) (files : List (String × String))
    (es : List Entry) (h : (generate env opts files).result = Except.ok es) :
    ∀ ent ∈ es, ∃ rc ∈ files,
      ent.file = pascalCase (basename rc.1) ∧
      ent.name = pascalCase ((opts.prefixOpt.getD "") ++ basename rc.1) ∧
      (opts.prefixOpt = none → ent.name = ent.file) := by
  intro ent hent
  obtain ⟨rc, hrc, he⟩ := generate_entries_shape env opts files es h ent hent
  refine ⟨rc, hrc, ?_, ?_, ?_⟩
  · rw [he]
    rfl
  · rw [he]
    rfl
  · intro hnone
    rw [he]
    show pascalCase ((opts.prefixOpt.getD "") ++ basename rc.1) = pascalCase (basename rc.1)
    rw [hnone]
    rfl

/-- Witness for C4 at a concrete prefixed run. -/
theorem c4_identifier_derivation_witness :
    (generate idEnv { sampleOpts with prefixOpt := some "Icon" }
        [("arrow-left.svg", "<svg><path/></svg>")]).result =
      Except.ok [{ name := "IconarrowLeft", file := "ArrowLeft", tags := ["arrow", "left"] }] ∧
    (∀ ent ∈ [({ name := "IconarrowLeft", file := "ArrowLeft", tags := ["arrow", "left"] } : Entry)],
      ∃ rc ∈ [("arrow-left.svg", "<svg><path/></svg>")],
        ent.file = pascalCase (basename rc.1) ∧
        ent.name = pascalCase ((({ sampleOpts with prefixOpt := some "Icon" } : Opts).prefixOpt.getD "") ++ basename rc.1) ∧
        (({ sampleOpts with prefixOpt := some "Icon" } : Opts).prefixOpt = none → ent.name = ent.file)) :=
  ⟨by decide,
   c4_identifier_derivation idEnv { sampleOpts with prefixOpt := some "Icon" }
     [("arrow-left.svg", "<svg><path/></svg>")]
     [{ name := "IconarrowLeft", file := "ArrowLeft", tags := ["arrow", "left"] }] (by decide)⟩

/-! ## C7 and C10: tag derivation -/

theorem splitCharList_ne_nil (sep : Char) : ∀ l : List Char, splitCharList sep l ≠ [] := by
  intro l
  induction l with
  | nil => simp [splitCharList]
  | cons c rest ih =>
    simp only [splitCharList]
    rcases hsp : splitCharList sep rest with _ | ⟨w, ws⟩
    · exact absurd hsp ih
    · by_cases hc : c = sep <;> simp [hc]

theorem join_split_data : ∀ l : List Char,
    (joinHyphen ((splitCharList '-' l).map String.mk)).data = l := by
  intro l
  induction l with
  | nil => rfl
  | cons c rest ih =>
    rcases hsp : splitCharList '-' rest with _ | ⟨w, ws⟩
    · exact absurd hsp (splitCharList_ne_nil '-' rest)
    · rw [hsp] at ih
      simp only [splitCharList, hsp]
      by_cases hc : c = '-'
      · subst hc
        simp only [if_pos rfl, List.map_cons]
        cases ws with
        | nil =>
          simp only [List.map_nil, joinHyphen] at ih ⊢
          simp only [data_append, data_mk]
          simpa using ih
        | cons w₂ ws' =>
          simp only [joinHyphen] at ih ⊢
          simp only [data_append, data_mk] at ih ⊢
          simpa using ih
      · simp only [if_neg hc, List.map_cons]
        cases ws with
        | nil =>
          simp only [List.map_nil, joinHyphen, data_append, data_mk] at ih ⊢
          rw [ih]
        | cons w₂ ws' =>
          simp only [joinHyphen, data_append, data_mk] at ih ⊢
          rw [← ih]
          simp

theorem join_split (s : String) : joinHyphen (splitHyphen s) = s := by
  apply strExt
  simpa [splitHyphen] using join_split_data s.data

/-- Amended C7: every manifest entry's tags are the verbatim hyphen
split of its base name — ordered, case-preserving (lowercase exactly
when the base name is), with empty tokens preserved — and the base name
`arrow-left-circle` yields `["arrow", "left", "circle"]`. -/
theorem c7_tags_split (env : Env) (opts : Opts) (files : List (String × String))
    (es : List Entry) (h : (generate env opts files).result = Except.ok es) :
    (∀ ent ∈ es, ∃ rc ∈ files, ent.tags = splitHyphen (basename rc.1)) ∧
    splitHyphen "arrow-left-circle" = ["arrow", "left", "circle"] := by
  refine ⟨?_, by decide⟩
  intro ent hent
  obtain ⟨rc, hrc, he⟩ := generate_entries_shape env opts files es h ent hent
  exact ⟨rc, hrc, by rw [he]; rfl⟩

/-- The tags of generated entries are not lowercased: a source file
named `Arrow-Left.svg` yields the tags `["Arrow", "Left"]`, which are
not lowercase, refuting C7 as stated. -/
theorem c7_tags_lowercase_cex :
    (generate idEnv sampleOpts [("Arrow-Left.svg", "<svg><path/></svg>")]).result =
      Except.ok [{ name := "ArrowLeft", file := "ArrowLeft", tags := ["Arrow", "Left"] }] ∧
    ¬ (∀ ent ∈ [({ name := "ArrowLeft", file := "ArrowLeft", tags := ["Arrow", "Left"] } : Entry)],
        ∀ tag ∈ ent.tags, String.mk (tag.data.map Char.toLower) = tag) := by
  decide

/-- Witness for the amended C7 at a concrete run. -/
theorem c7_tags_split_witness :
    (generate idEnv sampleOpts [("arrow-left-circle.svg", "<svg><path/></svg>")]).result =
      Except.ok [{ name := "ArrowLeftCircle", file := "ArrowLeftCircle",
                   tags := ["arrow", "left", "circle"] }] ∧
    (∀ ent ∈ [({ name := "ArrowLeftCircle", file := "ArrowLeftCircle",
                 tags := ["arrow", "left", "circle"] } : Entry)],
      ∃ rc ∈ [("arrow-left-circle.svg", "<svg><path/></svg>")],
        ent.tags = splitHyphen (basename rc.1)) ∧
    splitHyphen "arrow-left-circle" = ["arrow", "left", "circle"] :=
  ⟨by decide,
   (c7_tags_split idEnv sampleOpts [("arrow-left-circle.svg", "<svg><path/></svg>")]
     [{ name := "ArrowLeftCircle", file := "ArrowLeftCircle",
        tags := ["arrow", "left", "circle"] }] (by decide)).1,
   (c7_tags_split idEnv sampleOpts [("arrow-left-circle.svg", "<svg><path/></svg>")]
     [{ name := "ArrowLeftCircle", file := "ArrowLeftCircle",
        tags := ["arrow", "left", "circle"] }] (by decide)).2⟩

/-- C10: splitting on hyphens and re-joining with hyphens is the
identity, so every manifest entry's tags joined with `"-"` reconstruct
its base name exactly. -/
theorem c10_tags_join_roundtrip (env : Env) (opts : Opts) (files : List (String × String))
    (es : List Entry) (h : (generate env opts files).result = Except.ok es) :
    (∀ s, joinHyphen (splitHyphen s) = s) ∧
    (∀ ent ∈ es, ∃ rc ∈ files,
      ent.tags = splitHyphen (basename rc.1) ∧ joinHyphen ent.tags = basename rc.1) := by
  refine ⟨join_split, ?_⟩
  intro ent hent
  obtain ⟨rc, hrc, he⟩ := generate_entries_shape env opts files es h ent hent
  refine ⟨rc, hrc, by rw [he]; rfl, ?_⟩
  rw [he]
  show joinHyphen (splitHyphen (basename rc.1)) = basename rc.1
  exact join_split (basename rc.1)

/-- Witness for C10 at a concrete run. -/
theorem c10_tags_join_roundtrip_witness :
    (generate idEnv sampleOpts [("a--b.svg", "<svg><path/></svg>")]).result =
      Except.ok [{ name := "AB", file := "AB", tags := ["a", "", "b"] }] ∧
    (∀ s, joinHyphen (splitHyphen s) = s) ∧
    (∀ ent ∈ [({ name := "AB", file := "AB", tags := ["a", "", "b"] } : Entry)],
      ∃ rc ∈ [("a--b.svg", "<svg><path/></svg>")],
        ent.tags = splitHyphen (basename rc.1) ∧ joinHyphen ent.tags = basename rc.1) :=
  ⟨by decide,
   (c10_tags_join_roundtrip idEnv sampleOpts [("a--b.svg", "<svg><path/></svg>")]
     [{ name := "AB", file := "AB", tags := ["a", "", "b"] }] (by decide)).1,
   (c10_tags_join_roundtrip idEnv sampleOpts [("a--b.svg", "<svg><path/></svg>")]
     [{ name := "AB", file := "AB", tags := ["a", "", "b"] }] (by decide)).2⟩

/-! ## C2: fill / stroke mode in the component template -/

theorem strAppend_assoc (a b c : String) : (a ++ b) ++ c = a ++ (b ++ c) := by
  apply strExt
  simp [List.append_assoc]

theorem includes_mid_of (a c : String) {b pat : String} (h : includes b pat = true) :
    includes (a ++ b ++ c) pat = true :=
  includes_append_left c (includes_append_right a h)

theorem includes_strokeWidth_default (name sz sw : String) :
    includes (tplHeader name sz sw) ("strokeWidth = " ++ sw) = true := by
  have hM : (", strokeWidth = " : String) = ", " ++ "strokeWidth = " := by decide
  have hshape : tplHeader name sz sw =
      ((tplHeaderA name sz ++ ", ") ++ ("strokeWidth = " ++ sw)) ++ tplHeaderB := by
    unfold tplHeader
    rw [hM, ← strAppend_assoc (tplHeaderA name sz) ", " "strokeWidth = ",
      strAppend_assoc (tplHeaderA name sz ++ ", ") "strokeWidth = " sw]
  rw [hshape]
  exact includes_append_left tplHeaderB
    (includes_suffix (tplHeaderA name sz ++ ", ") ("strokeWidth = " ++ sw))

/-- C2: in the component text as `generate` builds it, filled mode sets
`fill="currentColor"` and `stroke="none"` and puts `undefined as any` —
not the `strokeWidth` prop — in the root element's stroke-width slot;
unfilled mode sets `fill="none"`, `stroke="currentColor"`, binds the
slot to the `strokeWidth` prop, and defaults that prop to the
configured default stroke width. -/
theorem c2_color_mode (opts : Opts) (compName svgBody : String) :
    (opts.filled = true →
      includes (buildComponent (componentDataFor opts compName svgBody)) "fill=\"currentColor\"" = true ∧
      includes (buildComponent (componentDataFor opts compName svgBody)) "stroke=\"none\"" = true ∧
      includes (buildComponent (componentDataFor opts compName svgBody)) "strokeWidth=\x7bundefined as any\x7d" = true ∧
      includes (tplAttr (fillValue true) (strokeValue true) true) "strokeWidth=\x7bstrokeWidth\x7d" = false ∧
      strokeWidthValue true ≠ "strokeWidth") ∧
    (opts.filled = false →
      includes (buildComponent (componentDataFor opts compName svgBody)) "fill=\"none\"" = true ∧
      includes (buildComponent (componentDataFor opts compName svgBody)) "stroke=\"currentColor\"" = true ∧
      includes (buildComponent (componentDataFor opts compName svgBody)) "strokeWidth=\x7bstrokeWidth\x7d" = true ∧
      includes (buildComponent (componentDataFor opts compName svgBody))
        ("strokeWidth = " ++ opts.defaultStrokeWidth) = true ∧
      strokeWidthValue false = "strokeWidth") := by
  have hbc : buildComponent (componentDataFor opts compName svgBody) =
      tplHeader compName opts.defaultSize opts.defaultStrokeWidth
      ++ tplAttr (fillValue opts.filled) (strokeValue opts.filled) opts.filled
      ++ tplFooter compName svgBody := rfl
  constructor
  · intro hf
    rw [hbc, hf]
    refine ⟨includes_mid_of _ _ ?_, includes_mid_of _ _ ?_, includes_mid_of _ _ ?_, ?_, ?_⟩
    · decide
    · decide
    · decide
    · decide
    · decide
  · intro hf
    rw [hbc, hf]
    refine ⟨includes_mid_of _ _ ?_, includes_mid_of _ _ ?_, includes_mid_of _ _ ?_, ?_, ?_⟩
    · decide
    · decide
    · decide
    · exact includes_append_left _ (includes_append_left _
        (includes_strokeWidth_default compName opts.defaultSize opts.defaultStrokeWidth))
    · decide

/-- Witness for C2 at a concrete filled and a concrete unfilled run. -/
theorem c2_color_mode_witness :
    (includes (buildComponent (componentDataFor { sampleOpts with filled := true } "Home" "<path/>"))
        "fill=\"currentColor\"" = true ∧
      includes (buildComponent (componentDataFor { sampleOpts with filled := true } "Home" "<path/>"))
        "stroke=\"none\"" = true ∧
      includes (buildComponent (componentDataFor { sampleOpts with filled := true } "Home" "<path/>"))
        "strokeWidth=\x7bundefined as any\x7d" = true ∧
      includes (tplAttr (fillValue true) (strokeValue true) true) "strokeWidth=\x7bstrokeWidth\x7d" = false ∧
      strokeWidthValue true ≠ "strokeWidth") ∧
    (includes (buildComponent (componentDataFor sampleOpts "Home" "<path/>")) "fill=\"none\"" = true ∧
      includes (buildComponent (componentDataFor sampleOpts "Home" "<path/>")) "stroke=\"currentColor\"" = true ∧
      includes (buildComponent (componentDataFor sampleOpts "Home" "<path/>")) "strokeWidth=\x7bstrokeWidth\x7d" = true ∧
      includes (buildComponent (componentDataFor sampleOpts "Home" "<path/>"))
        ("strokeWidth = " ++ sampleOpts.defaultStrokeWidth) = true ∧
      strokeWidthValue false = "strokeWidth") :=
  ⟨(c2_color_mode { sampleOpts with filled := true } "Home" "<path/>").1 rfl,
   (c2_color_mode sampleOpts "Home" "<path/>").2 rfl⟩

end Ikonik
